import Mathlib

/-!
Shallow embedding of the threatAnalayzer authorization engine and
tenant-provisioning workflow.

Sources embedded here:
- supabase/migrations (schema: clients, profiles, roles, user_roles,
  tenant_audit_log; SQL functions is_super_admin, can_access_client;
  trigger handle_new_user),
- supabase/functions/create-tenant-user/index.ts (the edge function handler),
- src/components/admin/TenantCreateForm.tsx (onSubmit workflow and
  generateSecurePassword),
- the UserManagement component (assignRole, removeRole).

Identifiers (uuids) are modelled as Nat; database tables as lists of
records; the uniqueness constraints of the schema (clients.name UNIQUE,
profiles.user_id UNIQUE, UNIQUE(user_id, role_id) on user_roles, unique
email in auth.users) appear as explicit conflict checks on insert, matching
the failure the storage layer reports.
-/

/-- Row of public.clients (a tenant): id, name (UNIQUE), email, tenant_type,
created_by, admin_user_id. -/
structure Client where
  id : Nat
  name : String
  email : String
  tenant_type : String
  created_by : Option Nat
  admin_user_id : Option Nat
  deriving DecidableEq

/-- Row of public.profiles: user_id (UNIQUE, references auth.users),
display_name, email, client_id (nullable), tenant_level. -/
structure Profile where
  user_id : Nat
  display_name : String
  email : String
  client_id : Option Nat
  tenant_level : String
  deriving DecidableEq

/-- Row of public.roles: id, name (UNIQUE). Permissions are not needed by
any claim and are omitted. -/
structure Role where
  id : Nat
  name : String
  deriving DecidableEq

/-- Row of public.user_roles: the (user_id, role_id) association,
UNIQUE(user_id, role_id). -/
structure UserRole where
  user_id : Nat
  role_id : Nat
  deriving DecidableEq

/-- Row of auth.users in the Identity Directory: id, email (unique), and the
stored credential. -/
structure AuthUser where
  id : Nat
  email : String
  password : String
  deriving DecidableEq

/-- Row of public.tenant_audit_log. -/
structure AuditEntry where
  tenant_id : Option Nat
  performed_by : Nat
  action : String
  deriving DecidableEq

/-- The database state: one list per table. -/
structure DB where
  clients : List Client
  profiles : List Profile
  roles : List Role
  user_roles : List UserRole
  auth_users : List AuthUser
  audit_log : List AuditEntry
  deriving DecidableEq

/-- SQL function public.is_super_admin(user_uuid): EXISTS a row of
user_roles joined to roles with name Super Admin for this user. -/
def is_super_admin (db : DB) (u : Nat) : Bool :=
  db.user_roles.any fun ur =>
    ur.user_id == u && db.roles.any fun r => r.id == ur.role_id && r.name == "Super Admin"

/-- SQL function public.can_access_client(user_uuid, client_uuid):
EXISTS over the UNION of the super-admin check and a profiles row with this
user_id and client_id. -/
def can_access_client (db : DB) (u : Nat) (c : Nat) : Bool :=
  is_super_admin db u || db.profiles.any fun p => p.user_id == u && p.client_id == some c

/-- The edge function wrapper canAccessClient (index.ts): a missing or null
client_id short-circuits to false before the rpc is consulted. -/
def canAccessClient (db : DB) (u : Nat) (c : Option Nat) : Bool :=
  match c with
  | none => false
  | some cid => can_access_client db u cid

/-- Request body of the create-tenant-user edge function, with the
destructuring defaults of index.ts already applied (tenant_level defaults
to user, role_names to the empty list). -/
structure CreateUserRequest where
  email : String
  password : Option String
  display_name : Option String
  client_id : Option Nat
  tenant_level : String
  role_names : List String
  deriving DecidableEq

/-- Outcome of the edge function handler: the JSON responses of index.ts. -/
inductive HandlerResult where
  | forbidden
  | badRequest (msg : String)
  | ok (user_id : Nat)
  deriving DecidableEq

/-- email.split at the at-sign, first component (index.ts). -/
def localPart (email : String) : String :=
  (email.splitOn "@").headD email

/-- The JS expression display_name or email local part: a missing or empty
display_name (both falsy) falls back to the local part of the email. -/
def displayNameOrLocal (d : Option String) (email : String) : String :=
  match d with
  | some s => if s = "" then localPart email else s
  | none => localPart email

/-- The JS expression password or generated fallback (index.ts line 89): a
missing or empty password (both falsy) is replaced by the
crypto.randomUUID-derived fallback, which the model keeps abstract. -/
def effectivePassword (p : Option String) (fallback : String) : String :=
  match p with
  | some s => if s = "" then fallback else s
  | none => fallback

/-- The profile row inserted by the handle_new_user trigger when an auth
user is created: display name from the metadata, tenant_level from the
metadata, client_id initially null. -/
def triggerProfile (uid : Nat) (email name tenantLevel : String) : Profile :=
  { user_id := uid, display_name := name, email := email,
    client_id := none, tenant_level := tenantLevel }

/-- The auth.users row created by supabaseAdmin.auth.admin.createUser. -/
def newAuthUser (uid : Nat) (email pwd : String) : AuthUser :=
  { id := uid, email := email, password := pwd }

/-- The create-tenant-user edge function handler (index.ts lines 71-134).
Parameters beyond the request: the caller identity resolved from the
Authorization header, the Identity-Directory-issued id for a newly created
user, and the fallback password. Sequencing: the email presence check, then
the authorization gate (super admin, else canAccessClient on the target
client), then auth user creation (failing on a duplicate email, which fires
the handle_new_user trigger), then the profile update keyed by user_id,
then role resolution by name and the user_roles insert (failing on the
UNIQUE(user_id, role_id) constraint). -/
def handler (db : DB) (caller : Nat) (req : CreateUserRequest)
    (newUserId : Nat) (fallback : String) : HandlerResult × DB :=
  if req.email = "" then (HandlerResult.badRequest "email is required", db)
  else if !is_super_admin db caller && !canAccessClient db caller req.client_id then
    (HandlerResult.forbidden, db)
  else if db.auth_users.any fun u => u.email == req.email then
    (HandlerResult.badRequest "A user with this email address has already been registered", db)
  else
    let name := displayNameOrLocal req.display_name req.email
    let db1 : DB :=
      { db with
        auth_users := db.auth_users ++
          [newAuthUser newUserId req.email (effectivePassword req.password fallback)],
        profiles := db.profiles ++ [triggerProfile newUserId req.email name req.tenant_level] }
    let db2 : DB :=
      { db1 with
        profiles := db1.profiles.map fun p =>
          if p.user_id == newUserId then
            { p with
              display_name := name, client_id := req.client_id,
              tenant_level := req.tenant_level, email := req.email }
          else p }
    let assignments := (db2.roles.filter fun r => req.role_names.contains r.name).map
      fun r => { user_id := newUserId, role_id := r.id : UserRole }
    if assignments.any (fun a => db2.user_roles.any fun ur =>
        ur.user_id == a.user_id && ur.role_id == a.role_id) then
      (HandlerResult.badRequest "duplicate key value violates unique constraint", db2)
    else
      (HandlerResult.ok newUserId, { db2 with user_roles := db2.user_roles ++ assignments })

/-- Result of a store operation as surfaced to the UI components. -/
inductive OpResult where
  | success
  | error (msg : String)
  deriving DecidableEq

/-- Insert into public.clients: the UNIQUE constraint on name rejects a
duplicate tenant name atomically, leaving the table unchanged. -/
def insertClient (db : DB) (c : Client) : OpResult × DB :=
  if db.clients.any fun c0 => c0.name == c.name then
    (OpResult.error "duplicate key value violates unique constraint on clients name", db)
  else
    (OpResult.success, { db with clients := db.clients ++ [c] })

/-- assignRole of the UserManagement component: a plain insert into
user_roles; the UNIQUE(user_id, role_id) constraint makes the insert of an
already-held role fail, which the component surfaces as an error. -/
def assignRole (db : DB) (userId roleId : Nat) : OpResult × DB :=
  if db.user_roles.any fun ur => ur.user_id == userId && ur.role_id == roleId then
    (OpResult.error "duplicate key value violates unique constraint", db)
  else
    (OpResult.success,
      { db with user_roles := db.user_roles ++ [{ user_id := userId, role_id := roleId }] })

/-- removeRole of the UserManagement component: a delete matching
(user_id, role_id); deleting zero rows is not an error. -/
def removeRole (db : DB) (userId roleId : Nat) : OpResult × DB :=
  (OpResult.success,
    { db with user_roles := db.user_roles.filter fun ur =>
        !(ur.user_id == userId && ur.role_id == roleId) })

/-- generateSecurePassword of TenantCreateForm: twelve characters, each
chars.charAt of a Math.random-derived index; rand abstracts the stream of
Math.random draws, reduced modulo the alphabet length. -/
def passwordChars : String :=
  "ABCDEFGHIJKLMNOPQRSTUVWXYZabcdefghijklmnopqrstuvwxyz0123456789!@#$%^&*"

/-- The generator loop of generateSecurePassword, with rand i the floored
Math.random draw of iteration i. -/
def generateSecurePassword (rand : Nat → Nat) : String :=
  ⟨(List.range 12).map fun i => passwordChars.data.getD (rand i % passwordChars.length) 'A'⟩

/-- The password-resolution expression of TenantCreateForm.onSubmit:
generatePassword selects the generated value; otherwise the JS or-chain
uses the custom password unless it is empty (falsy), in which case it
silently falls back to a generated one. -/
def resolveAdminPassword (gen : String) (generatePassword : Bool) (customPassword : String) : String :=
  if generatePassword then gen
  else if customPassword = "" then gen else customPassword

/-- The validated fields of the tenant-creation form (tenantCreateSchema):
the zod schema requires nonempty names and email shape but places no
constraint at all on customPassword. -/
structure TenantCreateData where
  tenantName : String
  tenantEmail : String
  adminName : String
  adminEmail : String
  generatePassword : Bool
  customPassword : String
  tenantType : String
  deriving DecidableEq

/-- The credentials surface shown once after a successful run. -/
structure CreatedCredentials where
  tenantId : Nat
  tenantName : String
  adminEmail : String
  adminPassword : String
  adminUserId : Option Nat
  deriving DecidableEq

/-- Outcome of the form workflow as reported to the operator. -/
inductive FormResult where
  | success (creds : CreatedCredentials)
  | failure (msg : String)
  deriving DecidableEq

/-- True on the success constructor. -/
def FormResult.isSuccess : FormResult → Bool
  | FormResult.success _ => true
  | FormResult.failure _ => false

/-- TenantCreateForm.onSubmit, the create-tenant-with-admin workflow:
insert the client row (admin_user_id null, created_by the caller), resolve
the admin password, invoke the create-tenant-user edge function with
client_id the new tenant, tenant_level tenant_admin and role_names the
singleton Tenant Admin, update the client with the returned admin user id,
then append the audit row with the insert result ignored (auditOk says
whether that append succeeded; the code never checks). gen abstracts the
generateSecurePassword draw and fallback the handler-side fallback. -/
def onSubmit (db : DB) (data : TenantCreateData) (callerId newTenantId newUserId : Nat)
    (gen fallback : String) (auditOk : Bool) : FormResult × DB :=
  let tenant : Client :=
    { id := newTenantId, name := data.tenantName,
      email := data.tenantEmail, tenant_type := data.tenantType,
      created_by := some callerId, admin_user_id := none }
  match insertClient db tenant with
  | (OpResult.error e, db0) => (FormResult.failure e, db0)
  | (OpResult.success, db1) =>
    let adminPassword := resolveAdminPassword gen data.generatePassword data.customPassword
    let req : CreateUserRequest :=
      { email := data.adminEmail, password := some adminPassword,
        display_name := some data.adminName, client_id := some newTenantId,
        tenant_level := "tenant_admin", role_names := ["Tenant Admin"] }
    match handler db1 callerId req newUserId fallback with
    | (HandlerResult.ok uid, db2) =>
      let db3 : DB :=
        { db2 with
          clients := db2.clients.map fun c =>
            if c.id == newTenantId then { c with admin_user_id := some uid } else c }
      let db4 : DB :=
        if auditOk then
          { db3 with
            audit_log := db3.audit_log ++
              [{ tenant_id := some newTenantId, performed_by := callerId,
                 action := "tenant_created" }] }
        else db3
      (FormResult.success
        { tenantId := newTenantId, tenantName := data.tenantName,
          adminEmail := data.adminEmail, adminPassword := adminPassword,
          adminUserId := some uid }, db4)
    | (HandlerResult.forbidden, db2) => (FormResult.failure "User not allowed", db2)
    | (HandlerResult.badRequest e, db2) => (FormResult.failure e, db2)

/-- C7: canAccessClient(P, T) is true iff P holds a RoleAssignment to the
Role named Super Admin, or P has a profile whose clientId equals T. -/
theorem can_access_client_iff (db : DB) (u : Nat) (c : Nat) :
    can_access_client db u c = true ↔
      ((∃ ur ∈ db.user_roles, ur.user_id = u ∧
          ∃ r ∈ db.roles, r.id = ur.role_id ∧ r.name = "Super Admin") ∨
        (∃ p ∈ db.profiles, p.user_id = u ∧ p.client_id = some c)) := by
  simp [can_access_client, is_super_admin, List.any_eq_true]

/-! Concrete states used to settle claims on explicit inputs. -/

/-- A store with tenant 1 (Acme) whose tenant admin is principal 10:
principal 10 has a profile in client 1 with tenant_level tenant_admin and
holds the Tenant Admin role, but not Super Admin. -/
def tenantAdminDb : DB :=
  { clients := [{ id := 1, name := "Acme", email := "c@acme.com",
                  tenant_type := "regular", created_by := none, admin_user_id := some 10 }],
    profiles := [{ user_id := 10, display_name := "TA", email := "ta@acme.com",
                   client_id := some 1, tenant_level := "tenant_admin" }],
    roles := [{ id := 1, name := "Super Admin" }, { id := 2, name := "Tenant Admin" }],
    user_roles := [{ user_id := 10, role_id := 2 }],
    auth_users := [{ id := 10, email := "ta@acme.com", password := "pw" }],
    audit_log := [] }

/-- The escalation request: a new user in tenant 1 with
role_names the singleton Tenant Admin. -/
def escalationReq : CreateUserRequest :=
  { email := "eve@acme.com", password := some "Password1234!", display_name := some "Eve",
    client_id := some 1, tenant_level := "user", role_names := ["Tenant Admin"] }

/-- A store with only the super admin principal 1 and the two admin roles;
no tenants yet. -/
def superOnlyDb : DB :=
  { clients := [],
    profiles := [{ user_id := 1, display_name := "Root", email := "root@msp.com",
                   client_id := none, tenant_level := "super_admin" }],
    roles := [{ id := 1, name := "Super Admin" }, { id := 2, name := "Tenant Admin" }],
    user_roles := [{ user_id := 1, role_id := 1 }],
    auth_users := [{ id := 1, email := "root@msp.com", password := "pw" }],
    audit_log := [] }

/-- Tenant-creation form input with an auto-generated password. -/
def acmeFormData : TenantCreateData :=
  { tenantName := "Acme", tenantEmail := "contact@acme.com", adminName := "Ada",
    adminEmail := "admin@acme.com", generatePassword := true, customPassword := "",
    tenantType := "regular" }

/-- Tenant-creation form input with the one-character custom password x. -/
def shortPwFormData : TenantCreateData :=
  { acmeFormData with generatePassword := false, customPassword := "x" }

/-- Create-user request naming a role that does not exist in the catalog. -/
def unknownRoleReq : CreateUserRequest :=
  { email := "u@acme.com", password := some "Password1234!", display_name := some "U",
    client_id := none, tenant_level := "user", role_names := ["Nonexistent Role"] }

/-- Create-user request whose email already has an auth.users row. -/
def duplicateEmailReq : CreateUserRequest :=
  { email := "root@msp.com", password := some "Password1234!", display_name := some "R",
    client_id := none, tenant_level := "user", role_names := [] }

/-- C1: at the failing input, a caller who is a tenant admin of tenant 1 and
not a super admin submits roleNames containing Tenant Admin; the handler,
which checks only canAccessClient and never inspects role_names, reports
success and creates the Tenant Admin RoleAssignment instead of returning
Forbidden. -/
theorem escalation_unchecked_at_failing_input :
    is_super_admin tenantAdminDb 10 = false ∧
    (handler tenantAdminDb 10 escalationReq 20 "fb").1 = HandlerResult.ok 20 ∧
    ({ user_id := 20, role_id := 2 } : UserRole) ∈
      (handler tenantAdminDb 10 escalationReq 20 "fb").2.user_roles := by
  decide

/-- C2 counterexample: every primary step of create-tenant-with-admin
succeeds, the audit append fails (auditOk false), yet the operation reports
success and the audit log stays empty: no audit-write-failed condition is
surfaced. -/
theorem audit_failure_reported_success :
    (onSubmit superOnlyDb acmeFormData 1 7 8 "GeneratedPw1" "FallbackPw16chr!" false).1 =
      FormResult.success
        { tenantId := 7, tenantName := "Acme", adminEmail := "admin@acme.com",
          adminPassword := "GeneratedPw1", adminUserId := some 8 } ∧
    (onSubmit superOnlyDb acmeFormData 1 7 8 "GeneratedPw1" "FallbackPw16chr!" false).2.audit_log = [] := by
  decide

/-- C3 counterexample: the caller-supplied custom password x (length 1, far
below the claimed minimum policy) is not rejected: the workflow reports
success and the Identity Directory principal is created with password x. -/
theorem short_custom_password_accepted :
    (onSubmit superOnlyDb shortPwFormData 1 7 8 "GeneratedPw1" "FallbackPw16chr!" true).1 =
      FormResult.success
        { tenantId := 7, tenantName := "Acme", adminEmail := "admin@acme.com",
          adminPassword := "x", adminUserId := some 8 } ∧
    ({ id := 8, email := "admin@acme.com", password := "x" } : AuthUser) ∈
      (onSubmit superOnlyDb shortPwFormData 1 7 8 "GeneratedPw1" "FallbackPw16chr!" true).2.auth_users := by
  decide

/-- C4 counterexample: a request naming only the nonexistent role is not a
validation error: the handler reports success and silently creates no
RoleAssignment at all. -/
theorem unknown_role_name_succeeds :
    (handler superOnlyDb 1 unknownRoleReq 20 "fb").1 = HandlerResult.ok 20 ∧
    (handler superOnlyDb 1 unknownRoleReq 20 "fb").2.user_roles = superOnlyDb.user_roles := by
  decide

/-- C5 counterexample: re-invoking creation with an email that already has a
Principal does not detect and skip: the handler fails with the duplicate
registration error and performs none of the remaining steps (the store is
returned unchanged). -/
theorem duplicate_email_no_completion :
    handler superOnlyDb 1 duplicateEmailReq 30 "fb" =
      (HandlerResult.badRequest "A user with this email address has already been registered",
        superOnlyDb) := by
  decide

/-- C6 counterexample: principal 10 already holds role 2; assigning role 2
again is not a no-op success: the unique-constraint violation is surfaced
as an error. -/
theorem assign_held_role_errors :
    (assignRole tenantAdminDb 10 2).1 =
      OpResult.error "duplicate key value violates unique constraint" := by
  decide

/-- C10: with a missing or null client_id, a caller who is not a super
admin is rejected with 403 Forbidden before any side effect: the handler
returns forbidden with the store untouched, because the canAccessClient
wrapper short-circuits to false on a null target. -/
theorem null_target_forbidden (db : DB) (caller : Nat) (req : CreateUserRequest)
    (uid : Nat) (fb : String) (hemail : req.email ≠ "") (hnull : req.client_id = none)
    (hns : is_super_admin db caller = false) :
    handler db caller req uid fb = (HandlerResult.forbidden, db) := by
  unfold handler
  simp [hemail, hnull, hns, canAccessClient]

/-- Witness for C10: principal 10 holds no roles in superOnlyDb; the
unknown-role request carries a null client_id, and the handler rejects it
with Forbidden, store unchanged. -/
theorem null_target_forbidden_holds :
    handler superOnlyDb 10 unknownRoleReq 20 "fb" = (HandlerResult.forbidden, superOnlyDb) :=
  null_target_forbidden superOnlyDb 10 unknownRoleReq 20 "fb"
    (by decide) (by decide) (by decide)

/-- C5 amended: when a Principal already exists for the requested email,
an authorized re-invocation does not detect and resume: it fails with the
duplicate-registration error and performs no step at all (the store is
returned unchanged: no profile write, no role assignment). -/
theorem duplicate_email_fails_without_resume (db : DB) (caller : Nat)
    (req : CreateUserRequest) (uid : Nat) (fb : String)
    (hemail : req.email ≠ "")
    (hauth : (is_super_admin db caller || canAccessClient db caller req.client_id) = true)
    (hdup : (db.auth_users.any fun u => u.email == req.email) = true) :
    handler db caller req uid fb =
      (HandlerResult.badRequest "A user with this email address has already been registered", db) := by
  unfold handler
  cases hs : is_super_admin db caller with
  | true => simp [hemail, hdup, hs]
  | false =>
    have hcan : canAccessClient db caller req.client_id = true := by
      simpa [hs] using hauth
    simp [hemail, hdup, hs, hcan]

/-- Witness for C5: the super admin re-submits the email of the existing
principal 1; the handler reports the duplicate error with the store
unchanged. -/
theorem duplicate_email_fails_without_resume_holds :
    handler superOnlyDb 1 duplicateEmailReq 31 "fb" =
      (HandlerResult.badRequest "A user with this email address has already been registered",
        superOnlyDb) :=
  duplicate_email_fails_without_resume superOnlyDb 1 duplicateEmailReq 31 "fb"
    (by decide) (by decide) (by decide)

/-- C6 amended: removing an unassigned role is a no-op success, but
assigning an already-held role is not: the insert hits the
UNIQUE(user_id, role_id) constraint and the operation reports an error
(the assignment set is unchanged in both cases). -/
theorem role_assign_remove_amended (db : DB) (u r : Nat) :
    ((db.user_roles.any fun ur => ur.user_id == u && ur.role_id == r) = true →
      assignRole db u r = (OpResult.error "duplicate key value violates unique constraint", db)) ∧
    ((db.user_roles.any fun ur => ur.user_id == u && ur.role_id == r) = false →
      removeRole db u r = (OpResult.success, db)) := by
  constructor
  · intro h
    unfold assignRole
    rw [if_pos h]
  · intro h
    unfold removeRole
    have hkeep : (db.user_roles.filter fun ur => !(ur.user_id == u && ur.role_id == r)) =
        db.user_roles := by
      apply List.filter_eq_self.mpr
      intro a ha
      have hx := List.any_eq_false.mp h a ha
      simp at hx ⊢
      tauto
    rw [hkeep]

/-- Witness for C6: principal 10 holds role 2 and not role 3 in
tenantAdminDb; assigning 2 errors while removing 3 is a no-op success. -/
theorem role_assign_remove_amended_holds :
    assignRole tenantAdminDb 10 2 =
      (OpResult.error "duplicate key value violates unique constraint", tenantAdminDb) ∧
    removeRole tenantAdminDb 10 3 = (OpResult.success, tenantAdminDb) :=
  ⟨(role_assign_remove_amended tenantAdminDb 10 2).1 (by decide),
   (role_assign_remove_amended tenantAdminDb 10 3).2 (by decide)⟩

/-- C2 amended: the audit append outcome never affects the reported result
of create-tenant-with-admin: the form ignores the insert result, so a run
whose audit write fails reports exactly what the same run with a
successful audit write reports (success when the primary steps committed). -/
theorem audit_outcome_never_affects_result (db : DB) (data : TenantCreateData)
    (callerId tid uid : Nat) (gen fb : String) :
    (onSubmit db data callerId tid uid gen fb false).1 =
      (onSubmit db data callerId tid uid gen fb true).1 := by
  unfold onSubmit
  rcases h1 : insertClient db
      { id := tid, name := data.tenantName, email := data.tenantEmail,
        tenant_type := data.tenantType, created_by := some callerId, admin_user_id := none }
    with ⟨r0, db0⟩
  cases r0 with
  | error msg => simp [h1]
  | success =>
    simp only [h1]
    rcases h2 : handler db0 callerId
        { email := data.adminEmail,
          password := some (resolveAdminPassword gen data.generatePassword data.customPassword),
          display_name := some data.adminName, client_id := some tid,
          tenant_level := "tenant_admin", role_names := ["Tenant Admin"] } uid fb
      with ⟨r1, db2⟩
    cases r1 <;> simp [h2]

/-- C9: of two CreateTenant calls with the same name against a store not
yet containing that name, the first succeeds and the second receives the
uniqueness-violation conflict, leaving the store unchanged; the
no-duplicate-names invariant is preserved by the pair of operations. -/
theorem tenant_name_uniqueness (db : DB) (c1 c2 : Client) (hname : c2.name = c1.name)
    (hfresh : (db.clients.any fun c0 => c0.name == c1.name) = false) :
    (insertClient db c1).1 = OpResult.success ∧
    (insertClient (insertClient db c1).2 c2).1 =
      OpResult.error "duplicate key value violates unique constraint on clients name" ∧
    (insertClient (insertClient db c1).2 c2).2 = (insertClient db c1).2 ∧
    ((db.clients.map Client.name).Nodup →
      (((insertClient (insertClient db c1).2 c2).2).clients.map Client.name).Nodup) := by
  have h1 : insertClient db c1 = (OpResult.success, { db with clients := db.clients ++ [c1] }) := by
    unfold insertClient
    rw [if_neg]
    simp [hfresh]
  have hcond : ((db.clients ++ [c1]).any fun c0 => c0.name == c2.name) = true := by
    simp [List.any_append, hname]
  have h2 : insertClient { db with clients := db.clients ++ [c1] } c2 =
      (OpResult.error "duplicate key value violates unique constraint on clients name",
        { db with clients := db.clients ++ [c1] }) := by
    unfold insertClient
    rw [if_pos]
    exact hcond
  refine ⟨by rw [h1], by rw [h1, h2], by rw [h1, h2], ?_⟩
  intro hnd
  rw [h1, h2]
  simp only [List.map_append, List.map_cons, List.map_nil]
  rw [List.nodup_append]
  refine ⟨hnd, List.nodup_singleton _, ?_⟩
  intro a ha hb
  rcases List.mem_map.mp ha with ⟨c0, hc0, rfl⟩
  have := List.any_eq_false.mp hfresh c0 hc0
  simp at this hb
  exact this (hb ▸ rfl)

/-- First concrete CreateTenant payload named Acme. -/
def acmeClient : Client :=
  { id := 7, name := "Acme", email := "contact@acme.com", tenant_type := "regular",
    created_by := some 1, admin_user_id := none }

/-- Second concrete CreateTenant payload reusing the name Acme. -/
def acmeClientAgain : Client :=
  { id := 9, name := "Acme", email := "other@acme.com", tenant_type := "regular",
    created_by := some 1, admin_user_id := none }

/-- Witness for C9: on the empty tenant store, inserting Acme succeeds,
inserting Acme again conflicts and changes nothing, and the resulting name
list is duplicate-free. -/
theorem tenant_name_uniqueness_holds :
    (insertClient superOnlyDb acmeClient).1 = OpResult.success ∧
    (insertClient (insertClient superOnlyDb acmeClient).2 acmeClientAgain).1 =
      OpResult.error "duplicate key value violates unique constraint on clients name" ∧
    (insertClient (insertClient superOnlyDb acmeClient).2 acmeClientAgain).2 =
      (insertClient superOnlyDb acmeClient).2 ∧
    (((insertClient (insertClient superOnlyDb acmeClient).2 acmeClientAgain).2).clients.map
      Client.name).Nodup := by
  have h := tenant_name_uniqueness superOnlyDb acmeClient acmeClientAgain rfl (by decide)
  exact ⟨h.1, h.2.1, h.2.2.1, h.2.2.2 (by decide)⟩

/-- C4 amended: a successful create-user run never fails on unknown role
names; the RoleAssignments created are exactly those for catalog Roles
whose name appears in roleNames, and names matching no Role are silently
dropped. -/
theorem unknown_role_names_dropped (db : DB) (caller : Nat) (req : CreateUserRequest)
    (uid : Nat) (fb : String) (r : Nat) (db' : DB)
    (h : handler db caller req uid fb = (HandlerResult.ok r, db')) :
    r = uid ∧
    db'.user_roles = db.user_roles ++
      ((db.roles.filter fun rl => req.role_names.contains rl.name).map
        fun rl => { user_id := uid, role_id := rl.id : UserRole }) := by
  unfold handler at h
  split at h
  · simp at h
  · split at h
    · simp at h
    · split at h
      · simp at h
      · dsimp only at h
        split at h
        · simp at h
        · rw [Prod.mk.injEq] at h
          obtain ⟨hr, hdb⟩ := h
          cases hr
          subst hdb
          exact ⟨rfl, rfl⟩

/-- Witness for C4: a run with only the Nonexistent Role name succeeds and
appends exactly the empty assignment list. -/
theorem unknown_role_names_dropped_holds :
    20 = 20 ∧
    (handler superOnlyDb 1 unknownRoleReq 20 "fb").2.user_roles =
      superOnlyDb.user_roles ++
        ((superOnlyDb.roles.filter fun rl => unknownRoleReq.role_names.contains rl.name).map
          fun rl => { user_id := 20, role_id := rl.id : UserRole }) :=
  unknown_role_names_dropped superOnlyDb 1 unknownRoleReq 20 "fb" 20
    (handler superOnlyDb 1 unknownRoleReq 20 "fb").2 (by decide)

/-- C3 amended: an auto-generated password always has length exactly 12 and
draws every character from the fixed mixed-class alphabet, whatever the
Math.random stream produced (no guarantee that several classes actually
appear, and Math.random is not a cryptographically secure source); a
caller-supplied custom password is never validated against any minimum
policy: any nonempty custom password is used verbatim, and an empty one
silently falls back to an auto-generated value instead of being rejected. -/
theorem password_policy_amended :
    (∀ rand : Nat → Nat, (generateSecurePassword rand).length = 12 ∧
      ∀ ch ∈ (generateSecurePassword rand).data, ch ∈ passwordChars.data) ∧
    (∀ gen custom : String, custom ≠ "" → resolveAdminPassword gen false custom = custom) ∧
    (∀ gen : String, resolveAdminPassword gen false "" = gen) := by
  refine ⟨fun rand => ⟨?_, ?_⟩, fun gen custom h => ?_, fun gen => ?_⟩
  · show ((List.range 12).map fun i =>
      passwordChars.data.getD (rand i % passwordChars.length) 'A').length = 12
    rw [List.length_map, List.length_range]
  · intro ch hch
    simp only [generateSecurePassword, List.mem_map, List.mem_range] at hch
    obtain ⟨i, hi, rfl⟩ := hch
    have hlt : rand i % passwordChars.length < passwordChars.data.length :=
      Nat.mod_lt _ (by decide)
    rw [List.getD_eq_getElem _ _ hlt]
    exact List.getElem_mem _
  · simp [resolveAdminPassword, h]
  · simp [resolveAdminPassword]

/-- Witness for C3 amended: for the constant-zero random stream the
generated password has length 12, and with auto-generation off the custom
password x is used verbatim while an empty custom password falls back to
the generated one. -/
theorem password_policy_amended_holds :
    (generateSecurePassword fun _ => 0).length = 12 ∧
    resolveAdminPassword "GeneratedPw1" false "x" = "x" ∧
    resolveAdminPassword "GeneratedPw1" false "" = "GeneratedPw1" :=
  ⟨(password_policy_amended.1 (fun _ => 0)).1,
   password_policy_amended.2.1 "GeneratedPw1" "x" (by decide),
   password_policy_amended.2.2 "GeneratedPw1"⟩

/-- The edge function never touches the clients table. -/
theorem handler_clients_eq (db : DB) (caller : Nat) (req : CreateUserRequest)
    (uid : Nat) (fb : String) :
    ((handler db caller req uid fb).2).clients = db.clients := by
  unfold handler
  split
  · rfl
  · split
    · rfl
    · split
      · rfl
      · dsimp only
        split <;> rfl

/-- A successful handler run reports exactly the Identity-Directory-issued
user id. -/
theorem handler_ok_uid (db : DB) (caller : Nat) (req : CreateUserRequest)
    (uid : Nat) (fb : String) (r : Nat) (db' : DB)
    (h : handler db caller req uid fb = (HandlerResult.ok r, db')) : r = uid := by
  unfold handler at h
  split at h
  · simp at h
  · split at h
    · simp at h
    · split at h
      · simp at h
      · dsimp only at h
        split at h
        · simp at h
        · rw [Prod.mk.injEq] at h
          cases h.1
          rfl

/-- After a successful handler run the store holds a profile for the new
user with exactly the requested tenant_level and client_id (written by the
trigger insert followed by the profile update). -/
theorem handler_ok_profile (db : DB) (caller : Nat) (req : CreateUserRequest)
    (uid : Nat) (fb : String) (r : Nat) (db' : DB)
    (h : handler db caller req uid fb = (HandlerResult.ok r, db')) :
    (db'.profiles.any fun p =>
      p.user_id == uid && p.tenant_level == req.tenant_level &&
        p.client_id == req.client_id) = true := by
  unfold handler at h
  split at h
  · simp at h
  · split at h
    · simp at h
    · split at h
      · simp at h
      · dsimp only at h
        split at h
        · simp at h
        · rw [Prod.mk.injEq] at h
          obtain ⟨hr, hdb⟩ := h
          subst hdb
          simp [List.any_append, triggerProfile]

/-- C8: after any run of create-tenant-with-admin against a store that does
not yet contain the new tenant id, every client row carrying that id
either has no admin reference yet or references exactly the new principal,
whose profile has tenant_level tenant_admin and client_id equal to the
tenant id (active-tenant invariant). -/
theorem active_tenant_invariant (db : DB) (data : TenantCreateData)
    (callerId tid uid : Nat) (gen fb : String) (auditOk : Bool)
    (hfresh : (db.clients.all fun c => c.id != tid) = true) :
    ((onSubmit db data callerId tid uid gen fb auditOk).2.clients.all fun c =>
      c.id != tid || c.admin_user_id == none ||
      (c.admin_user_id == some uid &&
        ((onSubmit db data callerId tid uid gen fb auditOk).2.profiles.any fun p =>
          p.user_id == uid && p.tenant_level == "tenant_admin" &&
            p.client_id == some tid))) = true := by
  unfold onSubmit
  rcases h1 : insertClient db
      { id := tid, name := data.tenantName, email := data.tenantEmail,
        tenant_type := data.tenantType, created_by := some callerId, admin_user_id := none }
    with ⟨r0, db0⟩
  cases r0 with
  | error msg =>
    have hdb0 : db0 = db := by
      unfold insertClient at h1
      split at h1
      · rw [Prod.mk.injEq] at h1
        exact h1.2.symm
      · simp at h1
    subst hdb0
    simp only [h1]
    rw [List.all_eq_true] at hfresh ⊢
    intro c hc
    simp [hfresh c hc]
  | success =>
    have hdb0 : db0 = { db with clients := db.clients ++
        [{ id := tid, name := data.tenantName, email := data.tenantEmail,
           tenant_type := data.tenantType, created_by := some callerId,
           admin_user_id := none }] } := by
      unfold insertClient at h1
      split at h1
      · simp at h1
      · rw [Prod.mk.injEq] at h1
        exact h1.2.symm
    simp only [h1]
    rcases h2 : handler db0 callerId
        { email := data.adminEmail,
          password := some (resolveAdminPassword gen data.generatePassword data.customPassword),
          display_name := some data.adminName, client_id := some tid,
          tenant_level := "tenant_admin", role_names := ["Tenant Admin"] } uid fb
      with ⟨r1, db2⟩
    have hcl : db2.clients = db0.clients := by
      have hh := handler_clients_eq db0 callerId
        { email := data.adminEmail,
          password := some (resolveAdminPassword gen data.generatePassword data.customPassword),
          display_name := some data.adminName, client_id := some tid,
          tenant_level := "tenant_admin", role_names := ["Tenant Admin"] } uid fb
      rw [h2] at hh
      exact hh
    cases r1 with
    | forbidden =>
      simp only [h2]
      rw [hcl, hdb0]
      rw [List.all_eq_true] at hfresh ⊢
      intro c hc
      rcases List.mem_append.mp hc with hc0 | hc1
      · simp [hfresh c hc0]
      · simp only [List.mem_singleton] at hc1
        subst hc1
        simp
    | badRequest e =>
      simp only [h2]
      rw [hcl, hdb0]
      rw [List.all_eq_true] at hfresh ⊢
      intro c hc
      rcases List.mem_append.mp hc with hc0 | hc1
      · simp [hfresh c hc0]
      · simp only [List.mem_singleton] at hc1
        subst hc1
        simp
    | ok u =>
      have huid : u = uid := handler_ok_uid _ _ _ _ _ _ _ h2
      subst huid
      have hp := handler_ok_profile _ _ _ _ _ _ _ h2
      simp only [h2]
      cases auditOk with
      | false =>
        rw [if_neg (show ¬(false = true) by decide)]
        rw [List.all_eq_true]
        intro x hx
        rcases List.mem_map.mp hx with ⟨c, hc, rfl⟩
        by_cases hid : (c.id == tid) = true
        · rw [if_pos hid]
          simp only [Bool.or_eq_true, Bool.and_eq_true]
          exact Or.inr ⟨by simp, hp⟩
        · rw [if_neg hid]
          have hfalse : (c.id == tid) = false := by
            cases hcb : (c.id == tid)
            · rfl
            · exact absurd hcb hid
          simp [bne, hfalse]
      | true =>
        rw [if_pos (show true = true from rfl)]
        rw [List.all_eq_true]
        intro x hx
        rcases List.mem_map.mp hx with ⟨c, hc, rfl⟩
        by_cases hid : (c.id == tid) = true
        · rw [if_pos hid]
          simp only [Bool.or_eq_true, Bool.and_eq_true]
          exact Or.inr ⟨by simp, hp⟩
        · rw [if_neg hid]
          have hfalse : (c.id == tid) = false := by
            cases hcb : (c.id == tid)
            · rfl
            · exact absurd hcb hid
          simp [bne, hfalse]

/-- Witness for C8: the super admin provisions Acme as tenant 7 with admin
principal 8 on the fresh store; in the resulting state the tenant row
references principal 8, whose profile is tenant_admin in client 7. -/
theorem active_tenant_invariant_holds :
    ((onSubmit superOnlyDb acmeFormData 1 7 8 "GeneratedPw1" "FallbackPw16chr!" true).2.clients.all
      fun c =>
        c.id != 7 || c.admin_user_id == none ||
        (c.admin_user_id == some 8 &&
          ((onSubmit superOnlyDb acmeFormData 1 7 8 "GeneratedPw1" "FallbackPw16chr!" true).2.profiles.any
            fun p =>
              p.user_id == 8 && p.tenant_level == "tenant_admin" &&
                p.client_id == some 7))) = true :=
  active_tenant_invariant superOnlyDb acmeFormData 1 7 8 "GeneratedPw1" "FallbackPw16chr!" true
    (by decide)
